import Mathlib

/-!
Verification development for the TeslaFi Prometheus exporter
(`exporter.py`).  The Python source is shallowly embedded: JSON values
become the inductive `JVal`, a snapshot (one parsed API response body)
becomes an association list, Python exceptions become an explicit error
type threaded through `Except`, and Python float arithmetic is modelled
over `ℚ` (the source's conversion constants are exact decimal
rationals).  Rational arithmetic is expressed through `Rat.divInt` and
the helper `qmul` so that all definitions evaluate inside the kernel;
`qmul_eq_mul` relates the helper to ordinary multiplication on `ℚ`.
-/

/-- A scalar JSON value, used for the payload of the upstream error
envelope (`{"response": {"result": ...}}`). -/
inductive JPrim where
  | null
  | str (s : String)
  | num (q : ℚ)
deriving DecidableEq, Repr

/-- A JSON value as it appears in a parsed TeslaFi response body: a
scalar, or (only for the `response` error envelope) a flat object. -/
inductive JVal where
  | null
  | str (s : String)
  | num (q : ℚ)
  | obj (kv : List (String × JPrim))
deriving DecidableEq, Repr

/-- A parsed JSON object body: Python's `dict` from `response.json()`. -/
def Snapshot : Type := List (String × JVal)

instance : DecidableEq Snapshot := by
  unfold Snapshot
  infer_instance

/-- Python `d[k]` key lookup result (`none` means the key is absent and
indexing raises `KeyError`). -/
def jget (s : Snapshot) (k : String) : Option JVal :=
  match s with
  | [] => none
  | (k', v) :: t => if k' = k then some v else jget t k

/-- Python exceptions raised by the exporter, by their role:
`transport` is the non-200 raise in `callTeslafiApi`, `upstreamRejected`
the `response`-envelope raise, and the rest are the interpreter's own
`KeyError` / `TypeError` / `ValueError`. -/
inductive PyErr where
  | transport (status : Nat)
  | upstreamRejected (detail : JPrim)
  | keyError (key : String)
  | typeError
  | valueError
deriving DecidableEq, Repr

/-- Multiplication on `ℚ` written through `Rat.divInt` so that it
reduces inside the kernel; equal to `(· * ·)` by `qmul_eq_mul`. -/
def qmul (a b : ℚ) : ℚ := Rat.divInt (a.num * b.num) ((a.den : ℤ) * (b.den : ℤ))

theorem qmul_eq_mul (a b : ℚ) : qmul a b = a * b := by
  rw [qmul, Rat.divInt_eq_div]
  push_cast
  rw [← div_mul_div_comm, Rat.num_div_den, Rat.num_div_den]

/-- Numeric value of a list of decimal digit characters. -/
def digitsVal (cs : List Char) : ℕ :=
  cs.foldl (fun n c => 10 * n + (c.toNat - 48)) 0

/-- Python `float(s)` on a plain decimal string: optional sign, digits
with at most one dot, at least one digit (exotic forms such as
exponents are outside the modelled input space). -/
def pyFloatStr (s : String) : Option ℚ :=
  let cs := s.toList
  let p : Bool × List Char :=
    match cs with
    | '-' :: t => (true, t)
    | '+' :: t => (false, t)
    | c => (false, c)
  let sign : ℤ := if p.1 then -1 else 1
  let ip := p.2.takeWhile Char.isDigit
  let rest := p.2.drop ip.length
  match rest with
  | [] =>
    if ip.isEmpty then none
    else some (Rat.divInt (sign * (digitsVal ip : ℤ)) 1)
  | '.' :: fp =>
    if fp.all Char.isDigit && !(ip.isEmpty && fp.isEmpty) then
      some (Rat.divInt
        (sign * ((digitsVal ip : ℤ) * (10 : ℤ) ^ fp.length + (digitsVal fp : ℤ)))
        ((10 : ℤ) ^ fp.length))
    else none
  | _ => none

/-- Python `int(s)`: optional sign followed by digits only. -/
def pyIntStr (s : String) : Option ℤ :=
  let cs := s.toList
  let p : Bool × List Char :=
    match cs with
    | '-' :: t => (true, t)
    | '+' :: t => (false, t)
    | c => (false, c)
  if p.2.isEmpty || !p.2.all Char.isDigit then none
  else some (if p.1 then -(digitsVal p.2 : ℤ) else (digitsVal p.2 : ℤ))

/-- Python `float(x)` on a JSON value: numbers pass through, strings are
parsed (`ValueError` on failure), `None` and objects raise `TypeError`. -/
def pyFloat : JVal → Except PyErr ℚ
  | JVal.null => Except.error PyErr.typeError
  | JVal.num q => Except.ok q
  | JVal.str s =>
    match pyFloatStr s with
    | some q => Except.ok q
    | none => Except.error PyErr.valueError
  | JVal.obj _ => Except.error PyErr.typeError

/-- Python `int(x)` on a JSON value: numbers truncate toward zero,
digit strings are parsed, `None` and objects raise `TypeError`. -/
def pyInt : JVal → Except PyErr ℤ
  | JVal.null => Except.error PyErr.typeError
  | JVal.num q => Except.ok (Int.tdiv q.num (q.den : ℤ))
  | JVal.str s =>
    match pyIntStr s with
    | some n => Except.ok n
    | none => Except.error PyErr.valueError
  | JVal.obj _ => Except.error PyErr.typeError

/-- `TeslaFiCollector.getSetData` (exporter.py lines 61-68).  The
Python default parameter `default=None` is made an explicit argument;
call sites with no declared default pass `JVal.null`.  Indexing a
snapshot that lacks `key` raises `KeyError`, exactly as `data[key]`
does. -/
def getSetData (data data_old : Snapshot) (key : String) (d : JVal) :
    Except PyErr JVal :=
  match jget data key with
  | none => Except.error (PyErr.keyError key)
  | some v =>
    if v = JVal.null ∨ v = JVal.str "" then
      match jget data_old key with
      | none => Except.error (PyErr.keyError key)
      | some w =>
        if w = JVal.null ∨ w = JVal.str "" then Except.ok d
        else Except.ok w
    else Except.ok v

/-- One upstream HTTP exchange: the status code and the parsed JSON
object body (`response.json()`). -/
structure ApiResponse where
  status : Nat
  body : Snapshot

/-- `needle ∈ hay` substring test, for Python's `"result" in s` on a
string-valued envelope. -/
def strContainsSub (hay needle : String) : Bool :=
  let n := needle.toList
  let rec go : List Char → Bool
    | [] => n.isPrefixOf []
    | c :: t => n.isPrefixOf (c :: t) || go t
  go hay.toList

/-- `TeslaFiCollector.callTeslafiApi` (exporter.py lines 34-59), after
the HTTP call: a non-200 status raises (Transport); a body with a
top-level `response` key raises with the embedded `result` message when
the envelope is an object; Python's `"result" in x` raises `TypeError`
on `None`/number envelopes and does a substring test on string
envelopes (where the subsequent `x["result"]` raises `TypeError`). -/
def callTeslafiApi (resp : ApiResponse) : Except PyErr Snapshot :=
  if resp.status ≠ 200 then Except.error (PyErr.transport resp.status)
  else
    match jget resp.body "response" with
    | none => Except.ok resp.body
    | some (JVal.obj kv) =>
      Except.error (PyErr.upstreamRejected
        (((kv.filter (fun p => p.1 = "result")).head?.map Prod.snd).getD
          (JPrim.str "")))
    | some (JVal.str s) =>
      if strContainsSub s "result" then Except.error PyErr.typeError
      else Except.error (PyErr.upstreamRejected (JPrim.str ""))
    | some JVal.null => Except.error PyErr.typeError
    | some (JVal.num _) => Except.error PyErr.typeError

example : pyFloatStr "100" = some (Rat.divInt 100 1) := by decide
example : pyFloatStr "13.4" = some (Rat.divInt 134 10) := by decide
example : pyFloatStr "-2.5" = some (Rat.divInt (-25) 10) := by decide
example : pyFloatStr "" = none := by decide
example : pyIntStr "-12" = some (-12) := by decide
example : pyIntStr "1.5" = none := by decide

/-- Kind of a produced metric family. -/
inductive MetricKind where
  | info
  | counter
  | gauge
  | stateset
deriving DecidableEq, Repr

/-- The value carried by one metric sample: `raw` for a value passed to
`add_metric` without conversion (the `data_id` counter), `num` for a
Python float, `intv` for a Python int, `info` for the key/value payload
of an `InfoMetricFamily`, and `states` for the boolean flag set of a
`StateSetMetricFamily` (flag names are the Python dict keys, which are
strings for the fixed enumerations and the raw observed value for
dynamically added flags). -/
inductive MetricValue where
  | raw (v : JVal)
  | num (q : ℚ)
  | intv (n : ℤ)
  | infoKV (kv : List (String × JVal))
  | states (flags : List (JVal × Bool))
deriving DecidableEq, Repr

/-- One `add_metric` call: the label values and the sample value. -/
structure Sample where
  labels : List JVal
  value : MetricValue
deriving DecidableEq, Repr

/-- One metric family appended to the `metrics` list of `collect`. -/
structure Metric where
  name : String
  kind : MetricKind
  samples : List Sample
deriving DecidableEq, Repr

/-- The state-set dict build pattern of `collect` (e.g. exporter.py
lines 767-785): a fixed enumeration of expected values, each mapped to
`observed == value`, followed by `if d.get(observed) is None:
d[observed] = True`, which appends a flag named after the raw observed
value whenever the observed value is not one of the (string) keys. -/
def mkStates (keys : List String) (v : JVal) : List (JVal × Bool) :=
  let base := keys.map (fun k => (JVal.str k, decide (v = JVal.str k)))
  if base.any (fun p => decide (p.1 = v)) then base else base ++ [(v, true)]

/-- Number of flags set to true in a state-set flag list. -/
def trueCount (l : List (JVal × Bool)) : Nat :=
  (l.filter (fun p => p.2)).length

/-- Car state flags (exporter.py lines 767-777). -/
def carStateFlags (v : JVal) : List (JVal × Bool) :=
  mkStates ["Driving", "Sleeping", "Idling", "Charging", "Sentry"] v

/-- Shift state flags, with the `None → "None"` rewrite (lines 787-798). -/
def shiftStateFlags (v : JVal) : List (JVal × Bool) :=
  mkStates ["None", "P", "R", "N", "D"] (if v = JVal.null then JVal.str "None" else v)

/-- Charger phase flags, with the `None → "None"` rewrite (lines 808-818). -/
def chargerPhasesFlags (v : JVal) : List (JVal × Bool) :=
  mkStates ["None", "1", "2", "3"] (if v = JVal.null then JVal.str "None" else v)

/-- API state flags (lines 828-836). -/
def apiStateFlags (v : JVal) : List (JVal × Bool) :=
  mkStates ["online", "offline", "asleep"] v

/-- The `None`/`''`/`'<invalid>'` → `'None'` rewrite used by several
state sets. -/
def normNone (v : JVal) : JVal :=
  if v = JVal.null ∨ v = JVal.str "" ∨ v = JVal.str "<invalid>" then JVal.str "None"
  else v

/-- The `None`/`''`/`'<invalid>'` → `'Unknown'` rewrite (location and
climate keeper mode). -/
def normUnknown (v : JVal) : JVal :=
  if v = JVal.null ∨ v = JVal.str "" ∨ v = JVal.str "<invalid>" then JVal.str "Unknown"
  else v

/-- Fast charger type flags (lines 846-855). -/
def fastChargerTypeFlags (v : JVal) : List (JVal × Bool) :=
  mkStates ["None", "MCSingleWireCAN", "Combo"] (normNone v)

/-- Charge port LED color flags (lines 865-873).  The source dict is
written literally because it is not an instance of the `mkStates`
pattern: both the `''` and the `'None'` key map to the comparison
`observed == 'None'`. -/
def chargePortLedColorFlags (v : JVal) : List (JVal × Bool) :=
  let w := if v = JVal.str "" then JVal.str "None" else v
  let base := [(JVal.str "", decide (w = JVal.str "None")),
               (JVal.str "None", decide (w = JVal.str "None"))]
  if base.any (fun p => decide (p.1 = w)) then base else base ++ [(w, true)]

/-- Charge port latch flags (lines 883-890). -/
def chargePortLatchFlags (v : JVal) : List (JVal × Bool) :=
  mkStates ["invalid", "Engaged"] v

/-- Charging state flags (lines 900-908). -/
def chargingStateFlags (v : JVal) : List (JVal × Bool) :=
  mkStates ["Disconnected", "Charging", "Complete"] v

/-- Location flags (lines 918-925). -/
def locationFlags (v : JVal) : List (JVal × Bool) :=
  mkStates ["Unknown"] (normUnknown v)

/-- Climate keeper mode flags (lines 935-945); note the normalised
`'Unknown'` value is not among the expected keys. -/
def climateKeeperModeFlags (v : JVal) : List (JVal × Bool) :=
  mkStates ["off", "on", "camp", "dog"] (normUnknown v)

/-- Connected charge cable flags (lines 955-963). -/
def connChargeCableFlags (v : JVal) : List (JVal × Bool) :=
  mkStates ["None", "IEC"] (normNone v)

/-- Fast charger brand flags (lines 973-981). -/
def fastChargerBrandFlags (v : JVal) : List (JVal × Bool) :=
  mkStates ["None", "Tesla"] (normNone v)

/-- New version status flags (lines 991-1003). -/
def newVersionStatusFlags (v : JVal) : List (JVal × Bool) :=
  mkStates ["None", "downloading_wifi_wait", "downloading", "available",
            "scheduled", "installing"] (normNone v)

theorem trueCount_nil : trueCount [] = 0 := rfl

theorem trueCount_cons (p : JVal × Bool) (l : List (JVal × Bool)) :
    trueCount (p :: l) = (if p.2 then 1 else 0) + trueCount l := by
  by_cases h : p.2 <;> simp [trueCount, List.filter_cons, h, Nat.add_comm]

theorem trueCount_append (l₁ l₂ : List (JVal × Bool)) :
    trueCount (l₁ ++ l₂) = trueCount l₁ + trueCount l₂ := by
  simp [trueCount, List.filter_append]

/-- The base dict of a `mkStates` build has one true flag per key equal
to the observed value. -/
theorem trueCount_mkStates_base (keys : List String) (v : JVal) :
    trueCount (keys.map (fun k => (JVal.str k, decide (v = JVal.str k)))) =
      (keys.filter (fun k => decide (v = JVal.str k))).length := by
  induction keys with
  | nil => rfl
  | cons k t ih =>
    cases hd : decide (v = JVal.str k) <;>
      simp [List.filter_cons, trueCount_cons, hd, ih, Nat.add_comm]

theorem filter_self_eq_length_one {α : Type} [DecidableEq α] (l : List α)
    (hl : l.Nodup) (a : α) (ha : a ∈ l) :
    (l.filter (fun x => decide (a = x))).length = 1 := by
  induction l with
  | nil => cases ha
  | cons b t ih =>
    rcases List.nodup_cons.mp hl with ⟨hb, ht⟩
    rcases List.mem_cons.mp ha with h | h
    · subst h
      have : t.filter (fun x => decide (a = x)) = [] := by
        refine List.filter_eq_nil_iff.mpr ?_
        intro x hx
        simp only [decide_eq_true_eq]
        intro hax
        exact hb (hax ▸ hx)
      simp [List.filter_cons, this]
    · have hba : ¬(a = b) := fun h' => hb (h' ▸ h)
      simp [List.filter_cons, hba, ih ht h]

/-- Any `mkStates` state set over distinct expected keys has exactly one
true flag, whatever the observed value is. -/
theorem trueCount_mkStates (keys : List String) (v : JVal) (hnd : keys.Nodup) :
    trueCount (mkStates keys v) = 1 := by
  unfold mkStates
  by_cases hmem : ∃ k ∈ keys, v = JVal.str k
  · obtain ⟨k, hk, rfl⟩ := hmem
    have hany : (keys.map (fun k' => (JVal.str k', decide (JVal.str k = JVal.str k')))).any
        (fun p => decide (p.1 = JVal.str k)) = true := by
      refine List.any_eq_true.mpr ?_
      exact ⟨(JVal.str k, decide (JVal.str k = JVal.str k)),
        List.mem_map_of_mem _ hk, by simp⟩
    rw [if_pos hany, trueCount_mkStates_base]
    have hcongr : keys.filter (fun k' => decide (JVal.str k = JVal.str k')) =
        keys.filter (fun k' => decide (k = k')) := by
      apply List.filter_congr
      intro x _
      simp
    rw [hcongr]
    exact filter_self_eq_length_one keys hnd k hk
  · push_neg at hmem
    have hany : (keys.map (fun k' => (JVal.str k', decide (v = JVal.str k')))).any
        (fun p => decide (p.1 = v)) = false := by
      refine List.any_eq_false.mpr ?_
      intro p hp
      obtain ⟨k, hk, rfl⟩ := List.mem_map.mp hp
      simp only [decide_eq_true_eq]
      exact fun h => hmem k hk h.symm
    rw [if_neg (by simp [hany]), trueCount_append, trueCount_mkStates_base]
    have hz : keys.filter (fun k => decide (v = JVal.str k)) = [] := by
      refine List.filter_eq_nil_iff.mpr ?_
      intro k hk
      simp only [decide_eq_true_eq]
      exact hmem k hk
    simp [hz, trueCount]

/-- When the observed value is not one of the expected (string) keys,
the `mkStates` pattern yields the expected keys all false plus one
dynamically added flag named after the raw observed value. -/
theorem mkStates_of_not_mem (keys : List String) (v : JVal)
    (h : v ∉ keys.map JVal.str) :
    mkStates keys v = (keys.map (fun k => (JVal.str k, false))) ++ [(v, true)] := by
  have hne : ∀ k ∈ keys, ¬(v = JVal.str k) := by
    intro k hk hv
    exact h (hv ▸ List.mem_map_of_mem JVal.str hk)
  unfold mkStates
  have hbase : keys.map (fun k => (JVal.str k, decide (v = JVal.str k))) =
      keys.map (fun k => (JVal.str k, false)) := by
    apply List.map_congr_left
    intro k hk
    simp [hne k hk]
  rw [hbase]
  have hany : (keys.map (fun k => (JVal.str k, false))).any
      (fun p => decide (p.1 = v)) = false := by
    refine List.any_eq_false.mpr ?_
    intro p hp
    obtain ⟨k, hk, rfl⟩ := List.mem_map.mp hp
    simp only [decide_eq_true_eq]
    exact fun hkv => hne k hk hkv.symm
  rw [if_neg (by simp [hany])]

/-- The charge-port LED color state set has two true flags exactly when
the observed value is empty or `"None"` (the `''` and `'None'` keys of
the source dict alias the same comparison), and one true flag
otherwise. -/
theorem trueCount_chargePortLedColorFlags (v : JVal) :
    trueCount (chargePortLedColorFlags v) =
      if v = JVal.str "" ∨ v = JVal.str "None" then 2 else 1 := by
  by_cases h1 : v = JVal.str ""
  · subst h1
    simp [chargePortLedColorFlags, trueCount]
  · by_cases h2 : v = JVal.str "None"
    · subst h2
      simp [chargePortLedColorFlags, trueCount]
    · have hb1 : ¬(JVal.str "" = v) := fun h => h1 h.symm
      have hb2 : ¬(JVal.str "None" = v) := fun h => h2 h.symm
      simp [chargePortLedColorFlags, h1, h2, hb1, hb2, trueCount, List.filter]

/-- Outside the two aliased keys, the LED color dict behaves like the
other state sets: the fixed keys are false and the observed value gets
its own true flag. -/
theorem chargePortLedColorFlags_of_ne (v : JVal)
    (h1 : v ≠ JVal.str "") (h2 : v ≠ JVal.str "None") :
    chargePortLedColorFlags v =
      [(JVal.str "", false), (JVal.str "None", false), (v, true)] := by
  have hb1 : ¬(JVal.str "" = v) := fun h => h1 h.symm
  have hb2 : ¬(JVal.str "None" = v) := fun h => h2 h.symm
  simp [chargePortLedColorFlags, h1, h2, hb1, hb2]

/-- The mile→meter factor 1609.344 (exporter.py, e.g. line 158),
written through `Rat.divInt` for kernel evaluation. -/
def mileFactor : ℚ := Rat.divInt 1609344 1000

/-- The mph→km/h factor 1.609344 (exporter.py lines 717 and 755). -/
def kmhFactor : ℚ := Rat.divInt 1609344 1000000

theorem mileFactor_eq : mileFactor = 1609.344 := by
  rw [mileFactor, Rat.divInt_eq_div]
  norm_num

theorem kmhFactor_eq : kmhFactor = 1.609344 := by
  rw [kmhFactor, Rat.divInt_eq_div]
  norm_num

/-- Odometer counter value (exporter.py lines 152-159):
`float(getSetData(data, data_old, "odometer")) * 1609.344`. -/
def odometerMeterVal (data data_old : Snapshot) : Except PyErr ℚ := do
  let v ← getSetData data data_old "odometer" JVal.null
  let q ← pyFloat v
  pure (qmul q mileFactor)

/-- Speed gauge value (exporter.py lines 747-755): the resolved speed,
`0.0` when `None`, converted with `* 1.609344`. -/
def speedKmhVal (data data_old : Snapshot) : Except PyErr ℚ := do
  let v ← getSetData data data_old "speed" JVal.null
  let q ← if v = JVal.null then pure (0 : ℚ) else pyFloat v
  pure (qmul q kmhFactor)

/-- All effectful field resolutions and conversions of
`TeslaFiCollector.collect` (exporter.py lines 87-1011), in source
order.  Pure computations (the `1 if ...=="True" else 0` of polling and
the state-set dict builds) are deferred to `assemble`; everything that
can raise (`getSetData` lookups, `float`/`int` conversions, and the
`None` checks guarding them) happens here. -/
structure Resolved where
  vinL : JVal
  dnL : JVal
  iVin : JVal
  iDisplayName : JVal
  iVehicleId : JVal
  iOptionCodes : JVal
  iExteriorColor : JVal
  iRoofColor : JVal
  iMeasure : JVal
  iEuVehicle : JVal
  iRhd : JVal
  iMotorizedChargePort : JVal
  iSpoilerType : JVal
  iThirdRowSeats : JVal
  iCarType : JVal
  iRearSeatHeaters : JVal
  sVin : JVal
  sDisplayName : JVal
  sVehicleName : JVal
  sCarVersion : JVal
  sNewVersion : JVal
  sWheelType : JVal
  sApiVersion : JVal
  dataId : JVal
  pollingV : JVal
  odometer : ℚ
  outsideTemp : ℚ
  insideTemp : ℚ
  driverTemp : ℚ
  passengerTemp : ℚ
  fanStatus : ℤ
  batteryLevel : ℚ
  usableBatteryLevel : ℚ
  batteryRange : ℚ
  idealBatteryRange : ℚ
  estBatteryRange : ℚ
  maxRange : ℚ
  chargeLimitSoc : ℚ
  gpsAsOf : ℚ
  heading : ℚ
  longitude : ℚ
  latitude : ℚ
  idleTime : ℚ
  idleNumber : ℚ
  sleepNumber : ℚ
  driveNumber : ℚ
  chargeNumber : ℚ
  sentryMode : ℤ
  locked : ℤ
  isUserPresent : ℤ
  inService : ℤ
  centerDisplayState : ℤ
  df : ℤ
  dr : ℤ
  pf : ℤ
  pr : ℤ
  ft : ℤ
  rt : ℤ
  fdWindow : ℤ
  rdWindow : ℤ
  fpWindow : ℤ
  rpWindow : ℤ
  shLeft : ℤ
  shRearLeft : ℤ
  shRight : ℤ
  shRearRight : ℤ
  shRearCenter : ℤ
  homelinkNearby : ℤ
  batteryHeaterOn : ℤ
  frontDefrosterOn : ℤ
  rearDefrosterOn : ℤ
  defrostMode : ℤ
  isPreconditioning : ℤ
  isAutoConditioningOn : ℤ
  isClimateOn : ℤ
  leftTempDirection : ℤ
  rightTempDirection : ℤ
  chargePortColdWeatherMode : ℤ
  chargePortDoorOpen : ℤ
  timeToFullCharge : ℚ
  chargeCurrentRequest : ℚ
  chargeEnableRequest : ℚ
  chargerPower : ℚ
  chargerPilotCurrent : ℚ
  chargerActualCurrent : ℚ
  chargeCurrentRequestMax : ℚ
  chargeEnergyAdded : ℚ
  chargeMilesAddedIdeal : ℚ
  chargeMilesAddedRated : ℚ
  chargeRate : ℚ
  chargerVoltage : ℚ
  fastChargerPresent : ℤ
  tripCharging : ℤ
  speedKmh : ℚ
  power : ℚ
  carStateV : JVal
  shiftStateV : JVal
  chargerPhasesV : JVal
  apiStateV : JVal
  fastChargerTypeV : JVal
  chargePortLedColorV : JVal
  chargePortLatchV : JVal
  chargingStateV : JVal
  locationV : JVal
  climateKeeperModeV : JVal
  connChargeCableV : JVal
  fastChargerBrandV : JVal
  newVersionStatusV : JVal

/-- `float(getSetData(data, data_old, key))`. -/
def resolveFloat (data data_old : Snapshot) (key : String) : Except PyErr ℚ := do
  let v ← getSetData data data_old key JVal.null
  pyFloat v

/-- `float(getSetData(data, data_old, key, -1))`. -/
def resolveFloatD (data data_old : Snapshot) (key : String) : Except PyErr ℚ := do
  let v ← getSetData data data_old key (JVal.num (-1))
  pyFloat v

/-- `int(getSetData(data, data_old, key))`. -/
def resolveInt (data data_old : Snapshot) (key : String) : Except PyErr ℤ := do
  let v ← getSetData data data_old key JVal.null
  pyInt v

/-- `int(getSetData(data, data_old, key, -1))`. -/
def resolveIntD (data data_old : Snapshot) (key : String) : Except PyErr ℤ := do
  let v ← getSetData data data_old key (JVal.num (-1))
  pyInt v

/-- `x = getSetData(...); x = -1 if x is None else int(x)` (the
center-display-state / temp-direction pattern). -/
def resolveIntOrNeg1 (data data_old : Snapshot) (key : String) : Except PyErr ℤ := do
  let v ← getSetData data data_old key JVal.null
  if v = JVal.null then pure (-1) else pyInt v

/-- `x = getSetData(...); x = 0.0 if x is None else float(x)` (the
gps-as-of pattern). -/
def resolveFloatOrZero (data data_old : Snapshot) (key : String) : Except PyErr ℚ := do
  let v ← getSetData data data_old key JVal.null
  if v = JVal.null then pure (0 : ℚ) else pyFloat v

def resolveAll (data data_old : Snapshot) : Except PyErr Resolved := do
  let vinL ← getSetData data data_old "vin" JVal.null
  let dnL ← getSetData data data_old "display_name" JVal.null
  let iVin ← getSetData data data_old "vin" (JVal.str "")
  let iDisplayName ← getSetData data data_old "display_name" (JVal.str "")
  let iVehicleId ← getSetData data data_old "vehicle_id" (JVal.str "")
  let iOptionCodes ← getSetData data data_old "option_codes" (JVal.str "")
  let iExteriorColor ← getSetData data data_old "exterior_color" (JVal.str "")
  let iRoofColor ← getSetData data data_old "roof_color" (JVal.str "")
  let iMeasure ← getSetData data data_old "measure" (JVal.str "")
  let iEuVehicle ← getSetData data data_old "eu_vehicle" (JVal.str "")
  let iRhd ← getSetData data data_old "rhd" (JVal.str "")
  let iMotorizedChargePort ← getSetData data data_old "motorized_charge_port" (JVal.str "")
  let iSpoilerType ← getSetData data data_old "spoiler_type" (JVal.str "")
  let iThirdRowSeats ← getSetData data data_old "third_row_seats" (JVal.str "")
  let iCarType ← getSetData data data_old "car_type" (JVal.str "")
  let iRearSeatHeaters ← getSetData data data_old "rear_seat_heaters" (JVal.str "")
  let sVin ← getSetData data data_old "vin" (JVal.str "")
  let sDisplayName ← getSetData data data_old "display_name" (JVal.str "")
  let sVehicleName ← getSetData data data_old "vehicle_name" (JVal.str "")
  let sCarVersion ← getSetData data data_old "car_version" (JVal.str "")
  let sNewVersion ← getSetData data data_old "newVersion" (JVal.str "")
  let sWheelType ← getSetData data data_old "wheel_type" (JVal.str "")
  let sApiVersion ← getSetData data data_old "api_version" (JVal.str "")
  let dataId ← getSetData data data_old "data_id" JVal.null
  let pollingV ← getSetData data data_old "polling" JVal.null
  let odometer ← odometerMeterVal data data_old
  let outsideTemp ← resolveFloat data data_old "outside_temp"
  let insideTemp ← resolveFloat data data_old "inside_temp"
  let driverTemp ← resolveFloat data data_old "driver_temp_setting"
  let passengerTemp ← resolveFloat data data_old "passenger_temp_setting"
  let fanStatus ← resolveInt data data_old "fan_status"
  let batteryLevel ← resolveFloat data data_old "battery_level"
  let usableBatteryLevel ← resolveFloat data data_old "usable_battery_level"
  let batteryRange ← resolveFloat data data_old "battery_range"
  let idealBatteryRange ← resolveFloat data data_old "ideal_battery_range"
  let estBatteryRange ← resolveFloat data data_old "est_battery_range"
  let maxRange ← resolveFloat data data_old "maxRange"
  let chargeLimitSoc ← resolveFloat data data_old "charge_limit_soc"
  let gpsAsOf ← resolveFloatOrZero data data_old "gps_as_of"
  let heading ← resolveFloat data data_old "heading"
  let longitude ← resolveFloat data data_old "longitude"
  let latitude ← resolveFloat data data_old "latitude"
  let idleTime ← resolveFloat data data_old "idleTime"
  let idleNumber ← resolveFloat data data_old "idleNumber"
  let sleepNumber ← resolveFloat data data_old "sleepNumber"
  let driveNumber ← resolveFloat data data_old "driveNumber"
  let chargeNumber ← resolveFloat data data_old "chargeNumber"
  let sentryMode ← resolveInt data data_old "sentry_mode"
  let locked ← resolveInt data data_old "locked"
  let isUserPresent ← resolveInt data data_old "is_user_present"
  let inService ← resolveInt data data_old "in_service"
  let centerDisplayState ← resolveIntOrNeg1 data data_old "center_display_state"
  let df ← resolveInt data data_old "df"
  let dr ← resolveInt data data_old "dr"
  let pf ← resolveInt data data_old "pf"
  let pr ← resolveInt data data_old "pr"
  let ft ← resolveInt data data_old "ft"
  let rt ← resolveInt data data_old "rt"
  let fdWindow ← resolveInt data data_old "fd_window"
  let rdWindow ← resolveInt data data_old "rd_window"
  let fpWindow ← resolveInt data data_old "fp_window"
  let rpWindow ← resolveInt data data_old "rp_window"
  let shLeft ← resolveInt data data_old "seat_heater_left"
  let shRearLeft ← resolveInt data data_old "seat_heater_rear_left"
  let shRight ← resolveInt data data_old "seat_heater_right"
  let shRearRight ← resolveInt data data_old "seat_heater_rear_right"
  let shRearCenter ← resolveInt data data_old "seat_heater_rear_center"
  let homelinkNearby ← resolveInt data data_old "homelink_nearby"
  let batteryHeaterOn ← resolveInt data data_old "battery_heater_on"
  let frontDefrosterOn ← resolveInt data data_old "is_front_defroster_on"
  let rearDefrosterOn ← resolveInt data data_old "is_rear_defroster_on"
  let defrostMode ← resolveInt data data_old "defrost_mode"
  let isPreconditioning ← resolveInt data data_old "is_preconditioning"
  let isAutoConditioningOn ← resolveInt data data_old "is_auto_conditioning_on"
  let isClimateOn ← resolveInt data data_old "is_climate_on"
  let leftTempDirection ← resolveIntOrNeg1 data data_old "left_temp_direction"
  let rightTempDirection ← resolveIntOrNeg1 data data_old "right_temp_direction"
  let chargePortColdWeatherMode ← resolveIntD data data_old "charge_port_cold_weather_mode"
  let chargePortDoorOpen ← resolveIntD data data_old "charge_port_door_open"
  let ttf ← resolveFloat data data_old "time_to_full_charge"
  let timeToFullCharge := qmul (qmul ttf 60) 60
  let chargeCurrentRequest ← resolveFloat data data_old "charge_current_request"
  let chargeEnableRequest ← resolveFloat data data_old "charge_enable_request"
  let chargerPower ← resolveFloatD data data_old "charger_power"
  let chargerPilotCurrent ← resolveFloatD data data_old "charger_pilot_current"
  let chargerActualCurrent ← resolveFloatD data data_old "charger_actual_current"
  let chargeCurrentRequestMax ← resolveFloat data data_old "charge_current_request_max"
  let chargeEnergyAdded ← resolveFloat data data_old "charge_energy_added"
  let cmi ← resolveFloat data data_old "charge_miles_added_ideal"
  let chargeMilesAddedIdeal := qmul cmi mileFactor
  let cmr ← resolveFloat data data_old "charge_miles_added_rated"
  let chargeMilesAddedRated := qmul cmr mileFactor
  let cr ← resolveFloat data data_old "charge_rate"
  let chargeRate := qmul cr kmhFactor
  let chargerVoltage ← resolveFloatD data data_old "charger_voltage"
  let fastChargerPresent ← resolveIntD data data_old "fast_charger_present"
  let tripCharging ← resolveIntD data data_old "trip_charging"
  let speedKmh ← speedKmhVal data data_old
  let power ← resolveFloat data data_old "power"
  let carStateV ← getSetData data data_old "carState" JVal.null
  let shiftStateV ← getSetData data data_old "shift_state" JVal.null
  let chargerPhasesV ← getSetData data data_old "charger_phases" JVal.null
  let apiStateV ← getSetData data data_old "state" JVal.null
  let fastChargerTypeV ← getSetData data data_old "fast_charger_type" JVal.null
  let chargePortLedColorV ← getSetData data data_old "charge_port_led_color" (JVal.str "")
  let chargePortLatchV ← getSetData data data_old "charge_port_latch" JVal.null
  let chargingStateV ← getSetData data data_old "charging_state" JVal.null
  let locationV ← getSetData data data_old "location" JVal.null
  let climateKeeperModeV ← getSetData data data_old "climate_keeper_mode" JVal.null
  let connChargeCableV ← getSetData data data_old "conn_charge_cable" JVal.null
  let fastChargerBrandV ← getSetData data data_old "fast_charger_brand" JVal.null
  let newVersionStatusV ← getSetData data data_old "newVersionStatus" JVal.null
  pure { vinL := vinL, dnL := dnL, iVin := iVin, iDisplayName := iDisplayName,
         iVehicleId := iVehicleId, iOptionCodes := iOptionCodes,
         iExteriorColor := iExteriorColor, iRoofColor := iRoofColor,
         iMeasure := iMeasure, iEuVehicle := iEuVehicle, iRhd := iRhd,
         iMotorizedChargePort := iMotorizedChargePort, iSpoilerType := iSpoilerType,
         iThirdRowSeats := iThirdRowSeats, iCarType := iCarType,
         iRearSeatHeaters := iRearSeatHeaters, sVin := sVin,
         sDisplayName := sDisplayName, sVehicleName := sVehicleName,
         sCarVersion := sCarVersion, sNewVersion := sNewVersion,
         sWheelType := sWheelType, sApiVersion := sApiVersion, dataId := dataId,
         pollingV := pollingV, odometer := odometer, outsideTemp := outsideTemp,
         insideTemp := insideTemp, driverTemp := driverTemp,
         passengerTemp := passengerTemp, fanStatus := fanStatus,
         batteryLevel := batteryLevel, usableBatteryLevel := usableBatteryLevel,
         batteryRange := batteryRange, idealBatteryRange := idealBatteryRange,
         estBatteryRange := estBatteryRange, maxRange := maxRange,
         chargeLimitSoc := chargeLimitSoc, gpsAsOf := gpsAsOf, heading := heading,
         longitude := longitude, latitude := latitude, idleTime := idleTime,
         idleNumber := idleNumber, sleepNumber := sleepNumber,
         driveNumber := driveNumber, chargeNumber := chargeNumber,
         sentryMode := sentryMode, locked := locked, isUserPresent := isUserPresent,
         inService := inService, centerDisplayState := centerDisplayState,
         df := df, dr := dr, pf := pf, pr := pr, ft := ft, rt := rt,
         fdWindow := fdWindow, rdWindow := rdWindow, fpWindow := fpWindow,
         rpWindow := rpWindow, shLeft := shLeft, shRearLeft := shRearLeft,
         shRight := shRight, shRearRight := shRearRight,
         shRearCenter := shRearCenter, homelinkNearby := homelinkNearby,
         batteryHeaterOn := batteryHeaterOn, frontDefrosterOn := frontDefrosterOn,
         rearDefrosterOn := rearDefrosterOn, defrostMode := defrostMode,
         isPreconditioning := isPreconditioning,
         isAutoConditioningOn := isAutoConditioningOn, isClimateOn := isClimateOn,
         leftTempDirection := leftTempDirection,
         rightTempDirection := rightTempDirection,
         chargePortColdWeatherMode := chargePortColdWeatherMode,
         chargePortDoorOpen := chargePortDoorOpen,
         timeToFullCharge := timeToFullCharge,
         chargeCurrentRequest := chargeCurrentRequest,
         chargeEnableRequest := chargeEnableRequest, chargerPower := chargerPower,
         chargerPilotCurrent := chargerPilotCurrent,
         chargerActualCurrent := chargerActualCurrent,
         chargeCurrentRequestMax := chargeCurrentRequestMax,
         chargeEnergyAdded := chargeEnergyAdded,
         chargeMilesAddedIdeal := chargeMilesAddedIdeal,
         chargeMilesAddedRated := chargeMilesAddedRated, chargeRate := chargeRate,
         chargerVoltage := chargerVoltage, fastChargerPresent := fastChargerPresent,
         tripCharging := tripCharging, speedKmh := speedKmh, power := power,
         carStateV := carStateV, shiftStateV := shiftStateV,
         chargerPhasesV := chargerPhasesV, apiStateV := apiStateV,
         fastChargerTypeV := fastChargerTypeV,
         chargePortLedColorV := chargePortLedColorV,
         chargePortLatchV := chargePortLatchV, chargingStateV := chargingStateV,
         locationV := locationV, climateKeeperModeV := climateKeeperModeV,
         connChargeCableV := connChargeCableV,
         fastChargerBrandV := fastChargerBrandV,
         newVersionStatusV := newVersionStatusV }

/-- `label_values` (exporter.py lines 93-96). -/
def labelsOf (r : Resolved) : List JVal := [r.vinL, r.dnL]

/-- The value dict of the `teslafi` info metric (lines 98-116). -/
def infoValueOf (r : Resolved) : List (String × JVal) :=
  [("vin", r.iVin), ("display_name", r.iDisplayName),
   ("vehicle_id", r.iVehicleId), ("option_codes", r.iOptionCodes),
   ("exterior_color", r.iExteriorColor), ("roof_color", r.iRoofColor),
   ("measure", r.iMeasure), ("eu_vehicle", r.iEuVehicle),
   ("rhd", r.iRhd), ("motorized_charge_port", r.iMotorizedChargePort),
   ("spoiler_type", r.iSpoilerType), ("third_row_seats", r.iThirdRowSeats),
   ("car_type", r.iCarType), ("rear_seat_heaters", r.iRearSeatHeaters)]

/-- The value dict of the `teslafi_status` info metric (lines 119-130). -/
def statusValueOf (r : Resolved) : List (String × JVal) :=
  [("vin", r.sVin), ("display_name", r.sDisplayName),
   ("vehicle_name", r.sVehicleName), ("car_version", r.sCarVersion),
   ("newVersion", r.sNewVersion), ("wheel_type", r.sWheelType),
   ("api_version", r.sApiVersion)]

/-- The metric batch built by `TeslaFiCollector.collect` (exporter.py
lines 87-1013) from the resolved field values, in the order the source
appends the families to `metrics`.  Sub-labelled families (`_number`,
`_door_open`, `_window_open`, `_seat_heater`) carry one sample per
fixed sub-label, appended in source order. -/
def assemble (r : Resolved) : List Metric :=
  [ { name := "teslafi", kind := MetricKind.info,
      samples := [{ labels := [], value := MetricValue.infoKV (infoValueOf r) }] },
    { name := "teslafi_status", kind := MetricKind.info,
      samples := [{ labels := [], value := MetricValue.infoKV (statusValueOf r) }] },
    { name := "teslafi_data_id", kind := MetricKind.counter,
      samples := [{ labels := labelsOf r, value := MetricValue.raw r.dataId }] },
    { name := "teslafi_polling", kind := MetricKind.gauge,
      samples := [{ labels := labelsOf r, value := MetricValue.intv (if r.pollingV = JVal.str "True" then 1 else 0) }] },
    { name := "teslafi_odometer_meter", kind := MetricKind.counter,
      samples := [{ labels := labelsOf r, value := MetricValue.num r.odometer }] },
    { name := "teslafi_outside_temperature", kind := MetricKind.gauge,
      samples := [{ labels := labelsOf r, value := MetricValue.num r.outsideTemp }] },
    { name := "teslafi_inside_temperature", kind := MetricKind.gauge,
      samples := [{ labels := labelsOf r, value := MetricValue.num r.insideTemp }] },
    { name := "teslafi_driver_set_temperature", kind := MetricKind.gauge,
      samples := [{ labels := labelsOf r, value := MetricValue.num r.driverTemp }] },
    { name := "teslafi_passenger_set_temperature", kind := MetricKind.gauge,
      samples := [{ labels := labelsOf r, value := MetricValue.num r.passengerTemp }] },
    { name := "teslafi_fan_status", kind := MetricKind.gauge,
      samples := [{ labels := labelsOf r, value := MetricValue.intv r.fanStatus }] },
    { name := "teslafi_battery_level", kind := MetricKind.gauge,
      samples := [{ labels := labelsOf r, value := MetricValue.num r.batteryLevel }] },
    { name := "teslafi_usable_battery_level", kind := MetricKind.gauge,
      samples := [{ labels := labelsOf r, value := MetricValue.num r.usableBatteryLevel }] },
    { name := "teslafi_battery_range_meter", kind := MetricKind.gauge,
      samples := [{ labels := labelsOf r, value := MetricValue.num (qmul r.batteryRange mileFactor) }] },
    { name := "teslafi_battery_range_ideal_meter", kind := MetricKind.gauge,
      samples := [{ labels := labelsOf r, value := MetricValue.num (qmul r.idealBatteryRange mileFactor) }] },
    { name := "teslafi_battery_range_est_meter", kind := MetricKind.gauge,
      samples := [{ labels := labelsOf r, value := MetricValue.num (qmul r.estBatteryRange mileFactor) }] },
    { name := "teslafi_maxRange_meter", kind := MetricKind.gauge,
      samples := [{ labels := labelsOf r, value := MetricValue.num (qmul r.maxRange mileFactor) }] },
    { name := "teslafi_charge_limit_soc", kind := MetricKind.gauge,
      samples := [{ labels := labelsOf r, value := MetricValue.num r.chargeLimitSoc }] },
    { name := "teslafi_gps_as_of", kind := MetricKind.gauge,
      samples := [{ labels := labelsOf r, value := MetricValue.num r.gpsAsOf }] },
    { name := "teslafi_heading", kind := MetricKind.gauge,
      samples := [{ labels := labelsOf r, value := MetricValue.num r.heading }] },
    { name := "teslafi_longitude", kind := MetricKind.gauge,
      samples := [{ labels := labelsOf r, value := MetricValue.num r.longitude }] },
    { name := "teslafi_latitude", kind := MetricKind.gauge,
      samples := [{ labels := labelsOf r, value := MetricValue.num r.latitude }] },
    { name := "teslafi_idleTime", kind := MetricKind.gauge,
      samples := [{ labels := labelsOf r, value := MetricValue.num r.idleTime }] },
    { name := "teslafi_number", kind := MetricKind.gauge,
      samples :=
        [{ labels := labelsOf r ++ [JVal.str "idle"], value := MetricValue.num r.idleNumber },
         { labels := labelsOf r ++ [JVal.str "sleep"], value := MetricValue.num r.sleepNumber },
         { labels := labelsOf r ++ [JVal.str "drive"], value := MetricValue.num r.driveNumber },
         { labels := labelsOf r ++ [JVal.str "charge"], value := MetricValue.num r.chargeNumber }] },
    { name := "teslafi_sentry_mode", kind := MetricKind.gauge,
      samples := [{ labels := labelsOf r, value := MetricValue.intv r.sentryMode }] },
    { name := "teslafi_locked", kind := MetricKind.gauge,
      samples := [{ labels := labelsOf r, value := MetricValue.intv r.locked }] },
    { name := "teslafi_is_user_present", kind := MetricKind.gauge,
      samples := [{ labels := labelsOf r, value := MetricValue.intv r.isUserPresent }] },
    { name := "teslafi_in_service", kind := MetricKind.gauge,
      samples := [{ labels := labelsOf r, value := MetricValue.intv r.inService }] },
    { name := "teslafi_center_display_state", kind := MetricKind.gauge,
      samples := [{ labels := labelsOf r, value := MetricValue.intv r.centerDisplayState }] },
    { name := "teslafi_door_open", kind := MetricKind.gauge,
      samples :=
        [{ labels := labelsOf r ++ [JVal.str "front driver"], value := MetricValue.intv r.df },
         { labels := labelsOf r ++ [JVal.str "rear driver"], value := MetricValue.intv r.dr },
         { labels := labelsOf r ++ [JVal.str "front passenger"], value := MetricValue.intv r.pf },
         { labels := labelsOf r ++ [JVal.str "rear passenger"], value := MetricValue.intv r.pr },
         { labels := labelsOf r ++ [JVal.str "front trunk"], value := MetricValue.intv r.ft },
         { labels := labelsOf r ++ [JVal.str "rear trunk"], value := MetricValue.intv r.rt }] },
    { name := "teslafi_window_open", kind := MetricKind.gauge,
      samples :=
        [{ labels := labelsOf r ++ [JVal.str "front driver"], value := MetricValue.intv r.fdWindow },
         { labels := labelsOf r ++ [JVal.str "rear driver"], value := MetricValue.intv r.rdWindow },
         { labels := labelsOf r ++ [JVal.str "front passenger"], value := MetricValue.intv r.fpWindow },
         { labels := labelsOf r ++ [JVal.str "rear passenger"], value := MetricValue.intv r.rpWindow }] },
    { name := "teslafi_seat_heater", kind := MetricKind.gauge,
      samples :=
        [{ labels := labelsOf r ++ [JVal.str "front driver"], value := MetricValue.intv r.shLeft },
         { labels := labelsOf r ++ [JVal.str "rear driver"], value := MetricValue.intv r.shRearLeft },
         { labels := labelsOf r ++ [JVal.str "front passenger"], value := MetricValue.intv r.shRight },
         { labels := labelsOf r ++ [JVal.str "rear passenger"], value := MetricValue.intv r.shRearRight },
         { labels := labelsOf r ++ [JVal.str "rear center"], value := MetricValue.intv r.shRearCenter }] },
    { name := "teslafi_homelink_nearby", kind := MetricKind.gauge,
      samples := [{ labels := labelsOf r, value := MetricValue.intv r.homelinkNearby }] },
    { name := "teslafi_battery_heater_on", kind := MetricKind.gauge,
      samples := [{ labels := labelsOf r, value := MetricValue.intv r.batteryHeaterOn }] },
    { name := "teslafi_is_front_defroster_on", kind := MetricKind.gauge,
      samples := [{ labels := labelsOf r, value := MetricValue.intv r.frontDefrosterOn }] },
    { name := "teslafi_is_rear_defroster_on", kind := MetricKind.gauge,
      samples := [{ labels := labelsOf r, value := MetricValue.intv r.rearDefrosterOn }] },
    { name := "teslafi_defrost_mode", kind := MetricKind.gauge,
      samples := [{ labels := labelsOf r, value := MetricValue.intv r.defrostMode }] },
    { name := "teslafi_is_preconditioning", kind := MetricKind.gauge,
      samples := [{ labels := labelsOf r, value := MetricValue.intv r.isPreconditioning }] },
    { name := "teslafi_is_auto_conditioning_on", kind := MetricKind.gauge,
      samples := [{ labels := labelsOf r, value := MetricValue.intv r.isAutoConditioningOn }] },
    { name := "teslafi_is_climate_on", kind := MetricKind.gauge,
      samples := [{ labels := labelsOf r, value := MetricValue.intv r.isClimateOn }] },
    { name := "teslafi_left_temp_direction", kind := MetricKind.gauge,
      samples := [{ labels := labelsOf r, value := MetricValue.intv r.leftTempDirection }] },
    { name := "teslafi_right_temp_direction", kind := MetricKind.gauge,
      samples := [{ labels := labelsOf r, value := MetricValue.intv r.rightTempDirection }] },
    { name := "teslafi_charge_port_cold_weather_mode", kind := MetricKind.gauge,
      samples := [{ labels := labelsOf r, value := MetricValue.intv r.chargePortColdWeatherMode }] },
    { name := "teslafi_charge_port_door_open", kind := MetricKind.gauge,
      samples := [{ labels := labelsOf r, value := MetricValue.intv r.chargePortDoorOpen }] },
    { name := "teslafi_time_to_full_charge_seconds", kind := MetricKind.gauge,
      samples := [{ labels := labelsOf r, value := MetricValue.num r.timeToFullCharge }] },
    { name := "teslafi_charge_current_request_ampere", kind := MetricKind.gauge,
      samples := [{ labels := labelsOf r, value := MetricValue.num r.chargeCurrentRequest }] },
    { name := "teslafi_charge_enable_request", kind := MetricKind.gauge,
      samples := [{ labels := labelsOf r, value := MetricValue.num r.chargeEnableRequest }] },
    { name := "teslafi_charger_power_kw", kind := MetricKind.gauge,
      samples := [{ labels := labelsOf r, value := MetricValue.num r.chargerPower }] },
    { name := "teslafi_charger_pilot_current_ampere", kind := MetricKind.gauge,
      samples := [{ labels := labelsOf r, value := MetricValue.num r.chargerPilotCurrent }] },
    { name := "teslafi_charger_actual_current_ampere", kind := MetricKind.gauge,
      samples := [{ labels := labelsOf r, value := MetricValue.num r.chargerActualCurrent }] },
    { name := "teslafi_charge_current_request_max_ampere", kind := MetricKind.gauge,
      samples := [{ labels := labelsOf r, value := MetricValue.num r.chargeCurrentRequestMax }] },
    { name := "teslafi_charge_energy_added_kwh", kind := MetricKind.gauge,
      samples := [{ labels := labelsOf r, value := MetricValue.num r.chargeEnergyAdded }] },
    { name := "teslafi_charge_range_ideal_added_meter", kind := MetricKind.gauge,
      samples := [{ labels := labelsOf r, value := MetricValue.num r.chargeMilesAddedIdeal }] },
    { name := "teslafi_charge_range_rated_added_meter", kind := MetricKind.gauge,
      samples := [{ labels := labelsOf r, value := MetricValue.num r.chargeMilesAddedRated }] },
    { name := "teslafi_charge_rate", kind := MetricKind.gauge,
      samples := [{ labels := labelsOf r, value := MetricValue.num r.chargeRate }] },
    { name := "teslafi_charger_voltage", kind := MetricKind.gauge,
      samples := [{ labels := labelsOf r, value := MetricValue.num r.chargerVoltage }] },
    { name := "teslafi_fast_charger_present", kind := MetricKind.gauge,
      samples := [{ labels := labelsOf r, value := MetricValue.intv r.fastChargerPresent }] },
    { name := "teslafi_trip_charging", kind := MetricKind.gauge,
      samples := [{ labels := labelsOf r, value := MetricValue.intv r.tripCharging }] },
    { name := "teslafi_speed_kmh", kind := MetricKind.gauge,
      samples := [{ labels := labelsOf r, value := MetricValue.num r.speedKmh }] },
    { name := "teslafi_power_kw", kind := MetricKind.gauge,
      samples := [{ labels := labelsOf r, value := MetricValue.num r.power }] },
    { name := "teslafi_carState", kind := MetricKind.stateset,
      samples := [{ labels := labelsOf r, value := MetricValue.states (carStateFlags r.carStateV) }] },
    { name := "teslafi_shift_state", kind := MetricKind.stateset,
      samples := [{ labels := labelsOf r, value := MetricValue.states (shiftStateFlags r.shiftStateV) }] },
    { name := "teslafi_charger_phases", kind := MetricKind.stateset,
      samples := [{ labels := labelsOf r, value := MetricValue.states (chargerPhasesFlags r.chargerPhasesV) }] },
    { name := "teslafi_api_state", kind := MetricKind.stateset,
      samples := [{ labels := labelsOf r, value := MetricValue.states (apiStateFlags r.apiStateV) }] },
    { name := "teslafi_fast_charger_type", kind := MetricKind.stateset,
      samples := [{ labels := labelsOf r, value := MetricValue.states (fastChargerTypeFlags r.fastChargerTypeV) }] },
    { name := "teslafi_charge_port_led_color", kind := MetricKind.stateset,
      samples := [{ labels := labelsOf r, value := MetricValue.states (chargePortLedColorFlags r.chargePortLedColorV) }] },
    { name := "teslafi_charge_port_latch", kind := MetricKind.stateset,
      samples := [{ labels := labelsOf r, value := MetricValue.states (chargePortLatchFlags r.chargePortLatchV) }] },
    { name := "teslafi_charging_state", kind := MetricKind.stateset,
      samples := [{ labels := labelsOf r, value := MetricValue.states (chargingStateFlags r.chargingStateV) }] },
    { name := "teslafi_location", kind := MetricKind.stateset,
      samples := [{ labels := labelsOf r, value := MetricValue.states (locationFlags r.locationV) }] },
    { name := "teslafi_climate_keeper_mode", kind := MetricKind.stateset,
      samples := [{ labels := labelsOf r, value := MetricValue.states (climateKeeperModeFlags r.climateKeeperModeV) }] },
    { name := "teslafi_conn_charge_cable", kind := MetricKind.stateset,
      samples := [{ labels := labelsOf r, value := MetricValue.states (connChargeCableFlags r.connChargeCableV) }] },
    { name := "teslafi_fast_charger_brand", kind := MetricKind.stateset,
      samples := [{ labels := labelsOf r, value := MetricValue.states (fastChargerBrandFlags r.fastChargerBrandV) }] },
    { name := "teslafi_newVersionStatus", kind := MetricKind.stateset,
      samples := [{ labels := labelsOf r, value := MetricValue.states (newVersionStatusFlags r.newVersionStatusV) }] } ]

/-- The metric batch of one `collect` body run on reconciled snapshots
`data` (current) and `data_old` (fallback source): all effectful field
resolutions in source order, then the pure batch construction. -/
def buildMetrics (data data_old : Snapshot) : Except PyErr (List Metric) :=
  Except.map assemble (resolveAll data data_old)

/-- `TeslaFiCollector.collect` (exporter.py lines 70-1013) including
the reconciliation step, over an oracle `http` giving the upstream
response for each `command` argument of `callTeslafiApi` and the
process state `last_good_data`.  Returns the scrape outcome, the new
`last_good_data`, and the list of upstream calls made (in order). -/
def collect (http : Option String → ApiResponse) (last_good_data : Option Snapshot) :
    Except PyErr (List Metric) × Option Snapshot × List (Option String) :=
  match callTeslafiApi (http none) with
  | Except.error e => (Except.error e, last_good_data, [none])
  | Except.ok teslafi_data =>
    match jget teslafi_data "outside_temp" with
    | none => (Except.error (PyErr.keyError "outside_temp"), last_good_data, [none])
    | some ot =>
      if ot = JVal.null then
        match last_good_data with
        | some old => (buildMetrics teslafi_data old, last_good_data, [none])
        | none =>
          match callTeslafiApi (http (some "lastGoodTemp")) with
          | Except.error e => (Except.error e, last_good_data, [none, some "lastGoodTemp"])
          | Except.ok lg =>
            (buildMetrics teslafi_data lg, some lg, [none, some "lastGoodTemp"])
      else (buildMetrics teslafi_data teslafi_data, some teslafi_data, [none])

/-- The batch of a successful scrape outcome (`[]` for a failed one). -/
def batchOf (e : Except PyErr (List Metric)) : List Metric :=
  match e with
  | Except.ok ms => ms
  | Except.error _ => []

/-- All state-set flag lists of a batch, tagged with their family name. -/
def stateSamplesOf (ms : List Metric) : List (String × List (JVal × Bool)) :=
  ms.flatMap (fun m => m.samples.filterMap (fun s =>
    match s.value with
    | MetricValue.states fl => some (m.name, fl)
    | _ => none))

/-- The shape of one metric family: its name and, per sample, the
sub-labels beyond the two identifying labels (`vin`, `display_name`). -/
def metricShape (m : Metric) : String × List (List JVal) :=
  (m.name, m.samples.map (fun s => s.labels.drop 2))

def batchShape (ms : List Metric) : List (String × List (List JVal)) :=
  ms.map metricShape

/-- The static metric catalog: every family name of the exporter with
its declared sub-label instances (one `[]` entry per plain sample). -/
def catalogShape : List (String × List (List JVal)) :=
  [("teslafi", [[]]),
   ("teslafi_status", [[]]),
   ("teslafi_data_id", [[]]),
   ("teslafi_polling", [[]]),
   ("teslafi_odometer_meter", [[]]),
   ("teslafi_outside_temperature", [[]]),
   ("teslafi_inside_temperature", [[]]),
   ("teslafi_driver_set_temperature", [[]]),
   ("teslafi_passenger_set_temperature", [[]]),
   ("teslafi_fan_status", [[]]),
   ("teslafi_battery_level", [[]]),
   ("teslafi_usable_battery_level", [[]]),
   ("teslafi_battery_range_meter", [[]]),
   ("teslafi_battery_range_ideal_meter", [[]]),
   ("teslafi_battery_range_est_meter", [[]]),
   ("teslafi_maxRange_meter", [[]]),
   ("teslafi_charge_limit_soc", [[]]),
   ("teslafi_gps_as_of", [[]]),
   ("teslafi_heading", [[]]),
   ("teslafi_longitude", [[]]),
   ("teslafi_latitude", [[]]),
   ("teslafi_idleTime", [[]]),
   ("teslafi_number",
     [[JVal.str "idle"], [JVal.str "sleep"], [JVal.str "drive"], [JVal.str "charge"]]),
   ("teslafi_sentry_mode", [[]]),
   ("teslafi_locked", [[]]),
   ("teslafi_is_user_present", [[]]),
   ("teslafi_in_service", [[]]),
   ("teslafi_center_display_state", [[]]),
   ("teslafi_door_open",
     [[JVal.str "front driver"], [JVal.str "rear driver"], [JVal.str "front passenger"],
      [JVal.str "rear passenger"], [JVal.str "front trunk"], [JVal.str "rear trunk"]]),
   ("teslafi_window_open",
     [[JVal.str "front driver"], [JVal.str "rear driver"], [JVal.str "front passenger"],
      [JVal.str "rear passenger"]]),
   ("teslafi_seat_heater",
     [[JVal.str "front driver"], [JVal.str "rear driver"], [JVal.str "front passenger"],
      [JVal.str "rear passenger"], [JVal.str "rear center"]]),
   ("teslafi_homelink_nearby", [[]]),
   ("teslafi_battery_heater_on", [[]]),
   ("teslafi_is_front_defroster_on", [[]]),
   ("teslafi_is_rear_defroster_on", [[]]),
   ("teslafi_defrost_mode", [[]]),
   ("teslafi_is_preconditioning", [[]]),
   ("teslafi_is_auto_conditioning_on", [[]]),
   ("teslafi_is_climate_on", [[]]),
   ("teslafi_left_temp_direction", [[]]),
   ("teslafi_right_temp_direction", [[]]),
   ("teslafi_charge_port_cold_weather_mode", [[]]),
   ("teslafi_charge_port_door_open", [[]]),
   ("teslafi_time_to_full_charge_seconds", [[]]),
   ("teslafi_charge_current_request_ampere", [[]]),
   ("teslafi_charge_enable_request", [[]]),
   ("teslafi_charger_power_kw", [[]]),
   ("teslafi_charger_pilot_current_ampere", [[]]),
   ("teslafi_charger_actual_current_ampere", [[]]),
   ("teslafi_charge_current_request_max_ampere", [[]]),
   ("teslafi_charge_energy_added_kwh", [[]]),
   ("teslafi_charge_range_ideal_added_meter", [[]]),
   ("teslafi_charge_range_rated_added_meter", [[]]),
   ("teslafi_charge_rate", [[]]),
   ("teslafi_charger_voltage", [[]]),
   ("teslafi_fast_charger_present", [[]]),
   ("teslafi_trip_charging", [[]]),
   ("teslafi_speed_kmh", [[]]),
   ("teslafi_power_kw", [[]]),
   ("teslafi_carState", [[]]),
   ("teslafi_shift_state", [[]]),
   ("teslafi_charger_phases", [[]]),
   ("teslafi_api_state", [[]]),
   ("teslafi_fast_charger_type", [[]]),
   ("teslafi_charge_port_led_color", [[]]),
   ("teslafi_charge_port_latch", [[]]),
   ("teslafi_charging_state", [[]]),
   ("teslafi_location", [[]]),
   ("teslafi_climate_keeper_mode", [[]]),
   ("teslafi_conn_charge_cable", [[]]),
   ("teslafi_fast_charger_brand", [[]]),
   ("teslafi_newVersionStatus", [[]])]

/-- A complete awake-vehicle snapshot used as concrete input for the
witnesses: every field `collect` touches is present and parseable, the
sentinel `outside_temp` is non-null, and `charge_port_led_color`,
`shift_state` and `charger_phases` are null as they are for a typical
idle vehicle. -/
def testSnap : Snapshot :=
  [("vin", JVal.str "T1"), ("display_name", JVal.str "Car"),
   ("vehicle_id", JVal.str "42"), ("option_codes", JVal.str ""),
   ("exterior_color", JVal.str "Red"), ("roof_color", JVal.str "Glass"),
   ("measure", JVal.str "metric"), ("eu_vehicle", JVal.str "1"),
   ("rhd", JVal.str "0"), ("motorized_charge_port", JVal.str "1"),
   ("spoiler_type", JVal.str "None"), ("third_row_seats", JVal.str "None"),
   ("car_type", JVal.str "model3"), ("rear_seat_heaters", JVal.str "1"),
   ("vehicle_name", JVal.str "Car"), ("car_version", JVal.str "2021.4.6"),
   ("newVersion", JVal.str ""), ("wheel_type", JVal.str "Pinwheel18"),
   ("api_version", JVal.str "10"), ("data_id", JVal.str "123"),
   ("polling", JVal.str "True"), ("odometer", JVal.str "100"),
   ("outside_temp", JVal.str "20"), ("inside_temp", JVal.str "21"),
   ("driver_temp_setting", JVal.str "22"), ("passenger_temp_setting", JVal.str "22"),
   ("fan_status", JVal.str "0"), ("battery_level", JVal.str "80"),
   ("usable_battery_level", JVal.str "79"), ("battery_range", JVal.str "200"),
   ("ideal_battery_range", JVal.str "210"), ("est_battery_range", JVal.str "190"),
   ("maxRange", JVal.str "250"), ("charge_limit_soc", JVal.str "90"),
   ("gps_as_of", JVal.str "1600000000"), ("heading", JVal.str "90"),
   ("longitude", JVal.str "13.4"), ("latitude", JVal.str "52.5"),
   ("idleTime", JVal.str "5"), ("idleNumber", JVal.str "10"),
   ("sleepNumber", JVal.str "11"), ("driveNumber", JVal.str "12"),
   ("chargeNumber", JVal.str "13"), ("sentry_mode", JVal.str "0"),
   ("locked", JVal.str "1"), ("is_user_present", JVal.str "0"),
   ("in_service", JVal.str "0"), ("center_display_state", JVal.str "0"),
   ("df", JVal.str "0"), ("dr", JVal.str "0"), ("pf", JVal.str "0"),
   ("pr", JVal.str "0"), ("ft", JVal.str "0"), ("rt", JVal.str "0"),
   ("fd_window", JVal.str "0"), ("rd_window", JVal.str "0"),
   ("fp_window", JVal.str "0"), ("rp_window", JVal.str "0"),
   ("seat_heater_left", JVal.str "0"), ("seat_heater_rear_left", JVal.str "0"),
   ("seat_heater_right", JVal.str "0"), ("seat_heater_rear_right", JVal.str "0"),
   ("seat_heater_rear_center", JVal.str "0"), ("homelink_nearby", JVal.str "0"),
   ("battery_heater_on", JVal.str "0"), ("is_front_defroster_on", JVal.str "0"),
   ("is_rear_defroster_on", JVal.str "0"), ("defrost_mode", JVal.str "0"),
   ("is_preconditioning", JVal.str "0"), ("is_auto_conditioning_on", JVal.str "0"),
   ("is_climate_on", JVal.str "0"), ("left_temp_direction", JVal.str "0"),
   ("right_temp_direction", JVal.str "0"),
   ("charge_port_cold_weather_mode", JVal.str "0"),
   ("charge_port_door_open", JVal.str "0"), ("time_to_full_charge", JVal.str "0"),
   ("charge_current_request", JVal.str "16"), ("charge_enable_request", JVal.str "1"),
   ("charger_power", JVal.str "0"), ("charger_pilot_current", JVal.str "16"),
   ("charger_actual_current", JVal.str "0"),
   ("charge_current_request_max", JVal.str "16"),
   ("charge_energy_added", JVal.str "7.5"),
   ("charge_miles_added_ideal", JVal.str "30"),
   ("charge_miles_added_rated", JVal.str "28"), ("charge_rate", JVal.str "0"),
   ("charger_voltage", JVal.str "230"), ("fast_charger_present", JVal.str "0"),
   ("trip_charging", JVal.str "0"), ("speed", JVal.str "60"),
   ("power", JVal.str "0"), ("carState", JVal.str "Idling"),
   ("shift_state", JVal.null), ("charger_phases", JVal.null),
   ("state", JVal.str "online"), ("fast_charger_type", JVal.str ""),
   ("charge_port_led_color", JVal.null), ("charge_port_latch", JVal.str "Engaged"),
   ("charging_state", JVal.str "Disconnected"), ("location", JVal.str "Home"),
   ("climate_keeper_mode", JVal.str "off"), ("conn_charge_cable", JVal.str "IEC"),
   ("fast_charger_brand", JVal.str ""), ("newVersionStatus", JVal.str "")]

example : (buildMetrics testSnap testSnap).isOk = true := by rfl

/-- Replace the value of one key of a snapshot (used to build witness
inputs; key sets stay unique as in a Python dict). -/
def setKey (s : Snapshot) (k : String) (v : JVal) : Snapshot :=
  s.map (fun p => if p.1 = k then (p.1, v) else p)

/-- Claim C3: for every field name, every pair of snapshots in which
that field name is present, and every default: `getSetData` returns the
current value when it is non-null and not the empty string; otherwise
the fallback value when that is non-null and not the empty string;
otherwise the supplied default. -/
theorem C3_getSetData_resolution (data data_old : Snapshot) (key : String)
    (d v w : JVal) (hv : jget data key = some v) (hw : jget data_old key = some w) :
    (¬(v = JVal.null ∨ v = JVal.str "") →
      getSetData data data_old key d = Except.ok v) ∧
    ((v = JVal.null ∨ v = JVal.str "") → ¬(w = JVal.null ∨ w = JVal.str "") →
      getSetData data data_old key d = Except.ok w) ∧
    ((v = JVal.null ∨ v = JVal.str "") → (w = JVal.null ∨ w = JVal.str "") →
      getSetData data data_old key d = Except.ok d) := by
  refine ⟨?_, ?_, ?_⟩
  · intro h1
    simp [getSetData, hv, h1]
  · intro h1 h2
    simp [getSetData, hv, hw, h1, h2]
  · intro h1 h2
    simp [getSetData, hv, hw, h1, h2]

theorem C3_witness :
    getSetData [("k", JVal.null)] [("k", JVal.str "b")] "k" JVal.null =
      Except.ok (JVal.str "b") :=
  (C3_getSetData_resolution [("k", JVal.null)] [("k", JVal.str "b")] "k"
    JVal.null JVal.null (JVal.str "b") rfl rfl).2.1 (Or.inl rfl) (by decide)

/-- Claim C10: `getSetData` requires key presence in the current
snapshot: a missing key raises `KeyError` instead of falling through to
the fallback or default, and (instantiated at the first resolved field,
`vin`) such a missing key makes the whole metric-building pass fail
even though other fields have declared defaults. -/
theorem C10_missing_key_aborts (data data_old : Snapshot) (key : String) (d : JVal)
    (h : jget data key = none) :
    getSetData data data_old key d = Except.error (PyErr.keyError key) ∧
    (jget data "vin" = none →
      ∀ old2 : Snapshot, buildMetrics data old2 = Except.error (PyErr.keyError "vin")) := by
  constructor
  · simp [getSetData, h]
  · intro hvin old2
    have h1 : getSetData data old2 "vin" JVal.null =
        Except.error (PyErr.keyError "vin") := by
      simp [getSetData, hvin]
    unfold buildMetrics resolveAll
    rw [h1]
    rfl

theorem C10_witness :
    getSetData [] [] "vin" (JVal.str "x") = Except.error (PyErr.keyError "vin") ∧
    buildMetrics [] [] = Except.error (PyErr.keyError "vin") :=
  ⟨(C10_missing_key_aborts [] [] "vin" (JVal.str "x") rfl).1,
   (C10_missing_key_aborts [] [] "vin" (JVal.str "x") rfl).2 rfl []⟩

/-- Claim C1: whenever the current snapshot's sentinel field
`outside_temp` is non-null, the fallback source of the pass is the
current snapshot itself and `last_good_data` is overwritten with the
current snapshot (and only the one primary call is made). -/
theorem C1_complete_snapshot_refreshes_cache (http : Option String → ApiResponse)
    (last_good_data : Option Snapshot) (tfd : Snapshot) (ot : JVal)
    (h1 : callTeslafiApi (http none) = Except.ok tfd)
    (h2 : jget tfd "outside_temp" = some ot) (h3 : ot ≠ JVal.null) :
    collect http last_good_data = (buildMetrics tfd tfd, some tfd, [none]) := by
  simp [collect, h1, h2, h3]

/-- The upstream oracle answering every call with the complete awake
snapshot. -/
def httpAwake : Option String → ApiResponse := fun _ => ⟨200, testSnap⟩

theorem C1_witness :
    callTeslafiApi (httpAwake none) = Except.ok testSnap ∧
    jget testSnap "outside_temp" = some (JVal.str "20") ∧
    collect httpAwake none = (buildMetrics testSnap testSnap, some testSnap, [none]) :=
  ⟨rfl, rfl, C1_complete_snapshot_refreshes_cache httpAwake none testSnap
    (JVal.str "20") rfl rfl (by decide)⟩

/-- Claim C2: whenever the sentinel field is null, an already-set
`last_good_data` is used as the fallback source without a second
upstream call; an unset one triggers exactly one additional call with
sub-command `lastGoodTemp`, whose result becomes both the new
`last_good_data` and the fallback source of the pass. -/
theorem C2_null_sentinel_fallback (http : Option String → ApiResponse)
    (last_good_data : Option Snapshot) (tfd : Snapshot)
    (h1 : callTeslafiApi (http none) = Except.ok tfd)
    (h2 : jget tfd "outside_temp" = some JVal.null) :
    (∀ old, last_good_data = some old →
      collect http last_good_data = (buildMetrics tfd old, some old, [none])) ∧
    (last_good_data = none →
      ∀ lg, callTeslafiApi (http (some "lastGoodTemp")) = Except.ok lg →
        collect http last_good_data =
          (buildMetrics tfd lg, some lg, [none, some "lastGoodTemp"])) := by
  constructor
  · intro old hold
    subst hold
    simp [collect, h1, h2]
  · intro hnone lg hlg
    subst hnone
    simp [collect, h1, h2, hlg]

/-- The awake snapshot with the sentinel field nulled out. -/
def testSnapAsleep : Snapshot := setKey testSnap "outside_temp" JVal.null

/-- The upstream oracle of a sleeping vehicle: the primary call returns
the incomplete snapshot, the `lastGoodTemp` call the complete one. -/
def httpAsleep : Option String → ApiResponse := fun c =>
  match c with
  | none => ⟨200, testSnapAsleep⟩
  | some _ => ⟨200, testSnap⟩

theorem C2_witness :
    collect httpAsleep (some testSnap) =
      (buildMetrics testSnapAsleep testSnap, some testSnap, [none]) ∧
    collect httpAsleep none =
      (buildMetrics testSnapAsleep testSnap, some testSnap,
        [none, some "lastGoodTemp"]) :=
  ⟨(C2_null_sentinel_fallback httpAsleep (some testSnap) testSnapAsleep rfl rfl).1
      testSnap rfl,
   (C2_null_sentinel_fallback httpAsleep none testSnapAsleep rfl rfl).2
      rfl testSnap rfl⟩

/-- Claim C6: a non-success HTTP status on the primary fetch makes the
scrape fail with a transport error, produces no batch, makes no further
call, and leaves `last_good_data` exactly as it was. -/
theorem C6_transport_failure_no_batch (http : Option String → ApiResponse)
    (last_good_data : Option Snapshot) (h : (http none).status ≠ 200) :
    collect http last_good_data =
      (Except.error (PyErr.transport (http none).status), last_good_data, [none]) := by
  have hc : callTeslafiApi (http none) =
      Except.error (PyErr.transport (http none).status) := by
    simp [callTeslafiApi, h]
  simp [collect, hc]

/-- An upstream oracle whose every response is a 500. -/
def httpDown : Option String → ApiResponse := fun _ => ⟨500, []⟩

theorem C6_witness :
    collect httpDown (some testSnap) =
      (Except.error (PyErr.transport 500), some testSnap, [none]) :=
  C6_transport_failure_no_batch httpDown (some testSnap) (by decide)

/-- Claim C7 (counterexample): a 200 response whose body is
`{"response": null}` contains a top-level `response` key, yet the call
fails with Python's `TypeError` (from `"result" in None`), not with the
upstream-rejected failure carrying an empty detail that the claim
promises for a missing result message. -/
theorem C7_counterexample :
    callTeslafiApi ⟨200, [("response", JVal.null)]⟩ = Except.error PyErr.typeError ∧
    PyErr.typeError ≠ PyErr.upstreamRejected (JPrim.str "") :=
  ⟨rfl, by decide⟩

/-- Claim C7 (amended): for every 200 response whose parsed body has a
top-level `response` key holding an object, the call fails with the
upstream-rejected error whose detail is the object's `result` entry
when present and the empty string otherwise, and no snapshot is
returned; for non-object `response` values the call still returns no
snapshot but can fail with a type error instead. -/
theorem C7_upstream_envelope (status : Nat) (body : Snapshot)
    (kv : List (String × JPrim)) (h200 : status = 200)
    (h : jget body "response" = some (JVal.obj kv)) :
    callTeslafiApi ⟨status, body⟩ =
      Except.error (PyErr.upstreamRejected
        (((kv.filter (fun p => p.1 = "result")).head?.map Prod.snd).getD
          (JPrim.str ""))) := by
  subst h200
  simp [callTeslafiApi, h]

theorem C7_witness :
    callTeslafiApi ⟨200, [("response", JVal.obj [("result", JPrim.str "err")])]⟩ =
      Except.error (PyErr.upstreamRejected (JPrim.str "err")) :=
  C7_upstream_envelope 200 [("response", JVal.obj [("result", JPrim.str "err")])]
    [("result", JPrim.str "err")] rfl rfl

/-- Claim C8: the unit conversions are exact: a resolved odometer of
`"100"` yields the counter value 160934.4 = 100 × 1609.344, and a
resolved speed of `"60"` yields the gauge value 96.56064 =
60 × 1.609344 (exact over `ℚ`; Python's binary floats are modelled by
exact rationals). -/
theorem C8_unit_conversions_exact (data data_old : Snapshot)
    (h1 : getSetData data data_old "odometer" JVal.null = Except.ok (JVal.str "100"))
    (h2 : getSetData data data_old "speed" JVal.null = Except.ok (JVal.str "60")) :
    odometerMeterVal data data_old = Except.ok (160934.4 : ℚ) ∧
    speedKmhVal data data_old = Except.ok (96.56064 : ℚ) := by
  constructor
  · have hstep : odometerMeterVal data data_old =
        Except.ok (qmul (Rat.divInt 100 1) mileFactor) := by
      unfold odometerMeterVal
      rw [h1]
      rfl
    have hq : qmul (Rat.divInt 100 1) mileFactor = (160934.4 : ℚ) := by
      rw [qmul_eq_mul, mileFactor_eq, Rat.divInt_eq_div]
      norm_num
    rw [hstep, hq]
  · have hstep : speedKmhVal data data_old =
        Except.ok (qmul (Rat.divInt 60 1) kmhFactor) := by
      unfold speedKmhVal
      rw [h2]
      rfl
    have hq : qmul (Rat.divInt 60 1) kmhFactor = (96.56064 : ℚ) := by
      rw [qmul_eq_mul, kmhFactor_eq, Rat.divInt_eq_div]
      norm_num
    rw [hstep, hq]

theorem C8_witness :
    getSetData testSnap testSnap "odometer" JVal.null = Except.ok (JVal.str "100") ∧
    odometerMeterVal testSnap testSnap = Except.ok (160934.4 : ℚ) ∧
    speedKmhVal testSnap testSnap = Except.ok (96.56064 : ℚ) :=
  ⟨rfl, (C8_unit_conversions_exact testSnap testSnap rfl rfl).1,
    (C8_unit_conversions_exact testSnap testSnap rfl rfl).2⟩

/-- Claim C9: every successfully produced batch consists of exactly the
static catalog: each declared family appears exactly once, with exactly
its declared sub-label instances, whatever the two input snapshots
contain; and the catalog's family names are pairwise distinct. -/
theorem C9_catalog_complete (data data_old : Snapshot) (ms : List Metric)
    (h : buildMetrics data data_old = Except.ok ms) :
    batchShape ms = catalogShape ∧ (catalogShape.map Prod.fst).Nodup := by
  refine ⟨?_, by decide⟩
  cases hr : resolveAll data data_old with
  | error e =>
    rw [buildMetrics, hr] at h
    exact absurd h (by simp [Except.map])
  | ok r =>
    rw [buildMetrics, hr] at h
    simp only [Except.map] at h
    injection h with h'
    subst h'
    rfl

theorem C9_witness :
    buildMetrics testSnap testSnap =
      Except.ok (batchOf (buildMetrics testSnap testSnap)) ∧
    batchShape (batchOf (buildMetrics testSnap testSnap)) = catalogShape :=
  ⟨rfl, (C9_catalog_complete testSnap testSnap
    (batchOf (buildMetrics testSnap testSnap)) rfl).1⟩

theorem trueCount_carStateFlags (v : JVal) : trueCount (carStateFlags v) = 1 :=
  trueCount_mkStates _ _ (by decide)

theorem trueCount_shiftStateFlags (v : JVal) : trueCount (shiftStateFlags v) = 1 :=
  trueCount_mkStates _ _ (by decide)

theorem trueCount_chargerPhasesFlags (v : JVal) : trueCount (chargerPhasesFlags v) = 1 :=
  trueCount_mkStates _ _ (by decide)

theorem trueCount_apiStateFlags (v : JVal) : trueCount (apiStateFlags v) = 1 :=
  trueCount_mkStates _ _ (by decide)

theorem trueCount_fastChargerTypeFlags (v : JVal) :
    trueCount (fastChargerTypeFlags v) = 1 :=
  trueCount_mkStates _ _ (by decide)

theorem trueCount_chargePortLatchFlags (v : JVal) :
    trueCount (chargePortLatchFlags v) = 1 :=
  trueCount_mkStates _ _ (by decide)

theorem trueCount_chargingStateFlags (v : JVal) :
    trueCount (chargingStateFlags v) = 1 :=
  trueCount_mkStates _ _ (by decide)

theorem trueCount_locationFlags (v : JVal) : trueCount (locationFlags v) = 1 :=
  trueCount_mkStates _ _ (by decide)

theorem trueCount_climateKeeperModeFlags (v : JVal) :
    trueCount (climateKeeperModeFlags v) = 1 :=
  trueCount_mkStates _ _ (by decide)

theorem trueCount_connChargeCableFlags (v : JVal) :
    trueCount (connChargeCableFlags v) = 1 :=
  trueCount_mkStates _ _ (by decide)

theorem trueCount_fastChargerBrandFlags (v : JVal) :
    trueCount (fastChargerBrandFlags v) = 1 :=
  trueCount_mkStates _ _ (by decide)

theorem trueCount_newVersionStatusFlags (v : JVal) :
    trueCount (newVersionStatusFlags v) = 1 :=
  trueCount_mkStates _ _ (by decide)

/-- Claim C4 (counterexample): a successful scrape (the complete test
snapshot, whose LED color field is null and so defaults to `''`,
normalised to `'None'`) produces a charge-port LED color state set in
which two flags — `''` and `'None'` — are true at once, refuting
"exactly one flag per enumerated-state metric". -/
theorem C4_counterexample :
    buildMetrics testSnap testSnap =
      Except.ok (batchOf (buildMetrics testSnap testSnap)) ∧
    ("teslafi_charge_port_led_color",
      [(JVal.str "", true), (JVal.str "None", true)]) ∈
        stateSamplesOf (batchOf (buildMetrics testSnap testSnap)) ∧
    trueCount [(JVal.str "", true), (JVal.str "None", true)] = 2 :=
  ⟨rfl, by decide, by decide⟩

/-- Claim C4 (amended): in every successful scrape, every
enumerated-state metric of the batch except the charge-port LED color
has exactly one true flag; the LED color set (whose `''` and `'None'`
keys alias the same comparison) has exactly two true flags when the
resolved value is `''` or `'None'` and exactly one otherwise. -/
theorem C4_stateset_one_true (data data_old : Snapshot) (ms : List Metric)
    (h : buildMetrics data data_old = Except.ok ms) :
    ∀ p ∈ stateSamplesOf ms,
      (p.1 ≠ "teslafi_charge_port_led_color" → trueCount p.2 = 1) ∧
      (p.1 = "teslafi_charge_port_led_color" →
        ∃ v, p.2 = chargePortLedColorFlags v ∧
          trueCount p.2 = if v = JVal.str "" ∨ v = JVal.str "None" then 2 else 1) := by
  cases hr : resolveAll data data_old with
  | error e =>
    rw [buildMetrics, hr] at h
    exact absurd h (by simp [Except.map])
  | ok r =>
    rw [buildMetrics, hr] at h
    simp only [Except.map] at h
    injection h with h'
    subst h'
    intro p hp
    have hs : stateSamplesOf (assemble r) =
        [("teslafi_carState", carStateFlags r.carStateV),
         ("teslafi_shift_state", shiftStateFlags r.shiftStateV),
         ("teslafi_charger_phases", chargerPhasesFlags r.chargerPhasesV),
         ("teslafi_api_state", apiStateFlags r.apiStateV),
         ("teslafi_fast_charger_type", fastChargerTypeFlags r.fastChargerTypeV),
         ("teslafi_charge_port_led_color", chargePortLedColorFlags r.chargePortLedColorV),
         ("teslafi_charge_port_latch", chargePortLatchFlags r.chargePortLatchV),
         ("teslafi_charging_state", chargingStateFlags r.chargingStateV),
         ("teslafi_location", locationFlags r.locationV),
         ("teslafi_climate_keeper_mode", climateKeeperModeFlags r.climateKeeperModeV),
         ("teslafi_conn_charge_cable", connChargeCableFlags r.connChargeCableV),
         ("teslafi_fast_charger_brand", fastChargerBrandFlags r.fastChargerBrandV),
         ("teslafi_newVersionStatus", newVersionStatusFlags r.newVersionStatusV)] := rfl
    rw [hs] at hp
    simp only [List.mem_cons, List.not_mem_nil, or_false] at hp
    rcases hp with rfl | rfl | rfl | rfl | rfl | rfl | rfl | rfl | rfl | rfl | rfl | rfl | rfl
    · exact ⟨fun _ => trueCount_carStateFlags _, fun hn => by simp at hn⟩
    · exact ⟨fun _ => trueCount_shiftStateFlags _, fun hn => by simp at hn⟩
    · exact ⟨fun _ => trueCount_chargerPhasesFlags _, fun hn => by simp at hn⟩
    · exact ⟨fun _ => trueCount_apiStateFlags _, fun hn => by simp at hn⟩
    · exact ⟨fun _ => trueCount_fastChargerTypeFlags _, fun hn => by simp at hn⟩
    · exact ⟨fun hne => absurd rfl hne,
        fun _ => ⟨r.chargePortLedColorV, rfl, trueCount_chargePortLedColorFlags _⟩⟩
    · exact ⟨fun _ => trueCount_chargePortLatchFlags _, fun hn => by simp at hn⟩
    · exact ⟨fun _ => trueCount_chargingStateFlags _, fun hn => by simp at hn⟩
    · exact ⟨fun _ => trueCount_locationFlags _, fun hn => by simp at hn⟩
    · exact ⟨fun _ => trueCount_climateKeeperModeFlags _, fun hn => by simp at hn⟩
    · exact ⟨fun _ => trueCount_connChargeCableFlags _, fun hn => by simp at hn⟩
    · exact ⟨fun _ => trueCount_fastChargerBrandFlags _, fun hn => by simp at hn⟩
    · exact ⟨fun _ => trueCount_newVersionStatusFlags _, fun hn => by simp at hn⟩

theorem C4_witness :
    buildMetrics testSnap testSnap =
      Except.ok (batchOf (buildMetrics testSnap testSnap)) ∧
    trueCount (carStateFlags (JVal.str "Idling")) = 1 :=
  ⟨rfl,
    ((C4_stateset_one_true testSnap testSnap (batchOf (buildMetrics testSnap testSnap))
        rfl) ("teslafi_carState", carStateFlags (JVal.str "Idling")) (by decide)).1
      (by decide)⟩

/-- Claim C5: an observed enumerated-state value outside the fixed
enumeration produces the fixed flags all false plus a dynamically added
flag named after the literal observed value set to true — for the
`mkStates` pattern shared by twelve of the state sets and likewise for
the charge-port LED color dict — without raising. -/
theorem C5_unknown_enum_value (keys : List String) (v : JVal) :
    (v ∉ keys.map JVal.str →
      mkStates keys v = (keys.map (fun k => (JVal.str k, false))) ++ [(v, true)]) ∧
    (v ≠ JVal.str "" → v ≠ JVal.str "None" →
      chargePortLedColorFlags v =
        [(JVal.str "", false), (JVal.str "None", false), (v, true)]) :=
  ⟨mkStates_of_not_mem keys v, chargePortLedColorFlags_of_ne v⟩

/-- The awake snapshot with an unexpected car state value. -/
def testSnapUnknownState : Snapshot := setKey testSnap "carState" (JVal.str "Flying")

theorem C5_witness :
    (JVal.str "Flying" ∉
      (["Driving", "Sleeping", "Idling", "Charging", "Sentry"].map JVal.str)) ∧
    mkStates ["Driving", "Sleeping", "Idling", "Charging", "Sentry"]
        (JVal.str "Flying") =
      (["Driving", "Sleeping", "Idling", "Charging", "Sentry"].map
        (fun k => (JVal.str k, false))) ++ [(JVal.str "Flying", true)] ∧
    (buildMetrics testSnapUnknownState testSnapUnknownState).isOk = true :=
  ⟨by decide,
   (C5_unknown_enum_value ["Driving", "Sleeping", "Idling", "Charging", "Sentry"]
      (JVal.str "Flying")).1 (by decide),
   rfl⟩
